import Mathlib

/-!
Verification development for the MysteryBox giveaway bot
(src/bot.py, src/main.py, src/cogs/giveaway.py, src/utils/database.py).

Python dictionaries are modelled as insertion-ordered association lists
(`List (String × v)`); Python lists as Lean lists; `random.choice` as
indexing by an arbitrary oracle index modulo the length.  File I/O is
modelled by a persisted snapshot inside the state together with a boolean
telling whether the underlying write succeeds.
-/

namespace MysteryBox

/-- Lookup in an association list, modelling `d[k]` / `k in d` on a Python
dict with string keys. -/
def dictGet {v : Type} (l : List (String × v)) (k : String) : Option v :=
  match l with
  | [] => none
  | (k1, v1) :: rest => if k1 = k then some v1 else dictGet rest k

/-- `d[k] = val` on a Python dict: replace in place when the key exists
(Python preserves insertion order on overwrite), append otherwise. -/
def dictSet {v : Type} (l : List (String × v)) (k : String) (val : v) :
    List (String × v) :=
  match l with
  | [] => [(k, val)]
  | (k1, v1) :: rest =>
      if k1 = k then (k, val) :: rest else (k1, v1) :: dictSet rest k val

/-- `del d[k]` on a Python dict: remove the (first) entry with key `k`. -/
def dictErase {v : Type} (l : List (String × v)) (k : String) :
    List (String × v) :=
  match l with
  | [] => []
  | (k1, v1) :: rest =>
      if k1 = k then rest else (k1, v1) :: dictErase rest k

/-- `d.keys()` of the modelled dict. -/
def dictKeys {v : Type} (l : List (String × v)) : List String :=
  l.map Prod.fst

/-- `d.values()` of the modelled dict. -/
def dictValues {v : Type} (l : List (String × v)) : List v :=
  l.map Prod.snd

/-- Python whitespace characters recognised by `str.strip()`. -/
def isPySpace (c : Char) : Bool :=
  c = ' ' || c = '\t' || c = '\n' || c = '\r' || c = '\x0b' || c = '\x0c'

/-- `str.strip()` on the character list of a string. -/
def pyStripChars (l : List Char) : List Char :=
  ((l.dropWhile isPySpace).reverse.dropWhile isPySpace).reverse

/-- `str.strip()`. -/
def pyStrip (s : String) : String :=
  String.mk (pyStripChars s.data)

/-- `str.split(sep)` for a one-character separator: split at every
occurrence, keeping empty pieces (so `"".split(sep) == [""]`). -/
def pySplitChars (sep : Char) (l : List Char) : List (List Char) :=
  match l with
  | [] => [[]]
  | c :: rest =>
      if c = sep then [] :: pySplitChars sep rest
      else
        match pySplitChars sep rest with
        | [] => [[c]]
        | h :: t => (c :: h) :: t

/-- `str.split(sep)` on strings. -/
def pySplit (sep : Char) (s : String) : List String :=
  (pySplitChars sep s.data).map String.mk

/-- `sep in s` membership test for a single character. -/
def pyContains (s : String) (c : Char) : Bool :=
  s.data.contains c

/-- Base-10 value of a digit list. -/
def digitsToNat (l : List Char) : Nat :=
  l.foldl (fun a c => a * 10 + (c.toNat - 48)) 0

/-- `int(s)` on a string already stripped of sign: nonempty digit run or
failure (Python's underscore grouping extension is not exercised by any
prize-id token considered here). -/
def pyIntCore (l : List Char) : Option Int :=
  if !l.isEmpty && l.all Char.isDigit then some (Int.ofNat (digitsToNat l))
  else none

/-- `int(s)`: strip whitespace, optional sign, digit run; `none` models
the `ValueError` raised on any other shape. -/
def pyInt (s : String) : Option Int :=
  match pyStripChars s.data with
  | [] => none
  | c :: rest =>
      if c = '+' then pyIntCore rest
      else if c = '-' then (pyIntCore rest).map Int.neg
      else pyIntCore (c :: rest)

/-- `range(a, b + 1)`: the integers of `[a, b]` in ascending order
(empty when `a > b`). -/
def intRange (a b : Int) : List Int :=
  (List.range (b + 1 - a).toNat).map (fun i => a + i)

/-- Classification of one prize id (the body of both loops of
`parse_prize_ids` in src/utils/database.py): a catalog hit goes to the
`result` dict, a miss is appended to `missing`. -/
def classifyId (prizes : List (String × String))
    (acc : List (String × String) × List String) (pid : String) :
    List (String × String) × List String :=
  match dictGet prizes pid with
  | some v => (dictSet acc.1 pid v, acc.2)
  | none => (acc.1, acc.2 ++ [pid])

/-- One iteration of the token loop of `parse_prize_ids`
(src/utils/database.py lines 173-199): a token containing `-` is split on
`-`; when that yields exactly two pieces whose strips both parse as
integers, every integer of the inclusive range is classified by its
string form; any `ValueError` (wrong piece count or non-integer bound)
falls back to treating the whole token as a bare id. -/
def processToken (prizes : List (String × String))
    (acc : List (String × String) × List String) (part : String) :
    List (String × String) × List String :=
  if pyContains part '-' then
    match pySplit '-' part with
    | [a, b] =>
        match pyInt (pyStrip a), pyInt (pyStrip b) with
        | some A, some B =>
            (intRange A B).foldl
              (fun acc2 i => classifyId prizes acc2 (toString i)) acc
        | _, _ => classifyId prizes acc part
    | _ => classifyId prizes acc part
  else classifyId prizes acc part

/-- `parse_prize_ids` (src/utils/database.py lines 165-201): split the
spec on commas, strip each part, fold the token classifier over the
parts starting from an empty result dict and missing list. -/
def parse_prize_ids (s : String) (prizes : List (String × String)) :
    List (String × String) × List String :=
  ((pySplit ',' s).map pyStrip).foldl (processToken prizes) ([], [])

/-- A persisted giveaway record, the field set written by
`create_giveaway` (src/cogs/giveaway.py lines 380-390) plus the two
optional fields later operations may add (`assigned_prizes`,
`celebration_gif`).  `channelId`/`messageId` are `Option` so that an
absent or falsy id (the early-return guard of `end_giveaway`) is
representable. -/
structure Giveaway where
  title : String
  description : String
  creatorId : String
  guildId : String
  channelId : Option String
  messageId : Option String
  endTime : Int
  participants : List String
  ended : Bool
  assignedPrizes : List (String × String)
  celebrationGif : Option String
deriving DecidableEq, Repr

/-- The cog plus bot state the giveaway operations touch:
`self.giveaways`, `self.prizes`, `self.gifs` (only the id-to-name view
matters here), `bot.active_giveaways` (timer-handle table, recording the
sleep duration each task was created with), and the on-disk
`giveaways.json` snapshot maintained by `save_giveaways`. -/
structure BotState where
  giveaways : List (String × Giveaway)
  prizes : List (String × String)
  gifs : List (String × String)
  activeTimers : List (String × Int)
  savedGiveaways : List (String × Giveaway)
deriving DecidableEq, Repr

/-- `save_giveaways` (src/utils/database.py lines 45-52): the file write
either succeeds, replacing the snapshot, or raises inside the function's
`try` block; the exception is logged and swallowed, so the caller gets no
signal and the old snapshot survives. -/
def save_giveaways (writeOk : Bool) (current persisted : List (String × Giveaway)) :
    List (String × Giveaway) :=
  if writeOk then current else persisted

/-- Observable announcement payloads handed to the transport layer. -/
inductive Effect where
  | winnerAnnounced (gid winner prize : String)
  | noWinner (gid : String)
  | cancelledAnnounced (gid : String)
deriving DecidableEq, Repr

/-- Environment of one `end_giveaway` run: whether `bot.get_channel`
finds the channel, and whether the `save_giveaways` file write succeeds. -/
structure ResolveEnv where
  channelOk : Bool
  writeOk : Bool
deriving DecidableEq, Repr

/-- `random.choice(seq)` with the random draw supplied as an oracle
index `k`, reduced modulo the (nonempty) sequence length. -/
def pyChoice (l : List String) (k : Nat) : String :=
  l.getD (k % l.length) ""

/-- The prize pick of `end_giveaway` (src/cogs/giveaway.py lines
252-260): default `"Mystery Prize"`; a truthy (nonempty)
`assigned_prizes` dict overrides it with a random choice among its
values; otherwise a nonempty global catalog supplies the choice. -/
def selectPrize (assigned globalCatalog : List (String × String)) (kP : Nat) :
    String :=
  if assigned.isEmpty = false then pyChoice (dictValues assigned) kP
  else if globalCatalog.isEmpty = false then pyChoice (dictValues globalCatalog) kP
  else "Mystery Prize"

/-- `end_giveaway` (src/cogs/giveaway.py lines 216-331).  An unknown id
returns at once.  Otherwise the record is marked ended and saved
immediately — before any other check.  Missing `channel_id`/`message_id`
or a failed channel lookup then abort the run early, leaving the
timer-handle table untouched.  On the announcement path a nonempty
participant list yields a uniform-random winner and a prize by the
`selectPrize` policy, an empty one the no-winner announcement; in both
branches the timer handle for this id is finally removed.
`kW`/`kP` are the random oracles for winner and prize choice. -/
def end_giveaway (env : ResolveEnv) (kW kP : Nat) (st : BotState) (gid : String) :
    BotState × List Effect :=
  match dictGet st.giveaways gid with
  | none => (st, [])
  | some g =>
      let g1 : Giveaway := { g with ended := true }
      let gs1 := dictSet st.giveaways gid g1
      let st1 : BotState :=
        { st with giveaways := gs1,
                  savedGiveaways := save_giveaways env.writeOk gs1 st.savedGiveaways }
      match g1.channelId, g1.messageId with
      | some _, some _ =>
          if env.channelOk then
            let effs :=
              if g1.participants.isEmpty then [Effect.noWinner gid]
              else
                [Effect.winnerAnnounced gid (pyChoice g1.participants kW)
                  (selectPrize g1.assignedPrizes st.prizes kP)]
            ({ st1 with activeTimers := dictErase st1.activeTimers gid }, effs)
          else (st1, [])
      | _, _ => (st1, [])

/-- `create_giveaway` (src/cogs/giveaway.py lines 341-399): computes the
duration in seconds from the hour and minute arguments with no
validation, builds the record with `ended=false` and empty participants,
stores and saves it, and arms a timer for the duration.  Returns the
armed duration. -/
def create_giveaway (writeOk : Bool) (st : BotState) (gid : String)
    (title description creatorId guildId channelId messageId : String)
    (hours minutes now : Int) : BotState × Int :=
  let duration := hours * 3600 + minutes * 60
  let g : Giveaway :=
    { title := title, description := description, creatorId := creatorId,
      guildId := guildId, channelId := some channelId,
      messageId := some messageId, endTime := now + duration,
      participants := [], ended := false, assignedPrizes := [],
      celebrationGif := none }
  let gs1 := dictSet st.giveaways gid g
  ({ st with giveaways := gs1,
             savedGiveaways := save_giveaways writeOk gs1 st.savedGiveaways,
             activeTimers := dictSet st.activeTimers gid duration },
   duration)

/-- Outcome of `add_participant` as reported to the interacting user. -/
inductive JoinResult where
  | notFound
  | alreadyEnded
  | alreadyJoined
  | joined
deriving DecidableEq, Repr

/-- `add_participant` (src/cogs/giveaway.py lines 401-447): unknown id,
already-ended and already-present checks each return with the state
untouched; otherwise the user id is appended and the collection saved
before the success acknowledgement. -/
def add_participant (writeOk : Bool) (st : BotState) (gid uid : String) :
    BotState × JoinResult :=
  match dictGet st.giveaways gid with
  | none => (st, JoinResult.notFound)
  | some g =>
      if g.ended then (st, JoinResult.alreadyEnded)
      else if g.participants.contains uid then (st, JoinResult.alreadyJoined)
      else
        let g1 : Giveaway := { g with participants := g.participants ++ [uid] }
        let gs1 := dictSet st.giveaways gid g1
        ({ st with giveaways := gs1,
                   savedGiveaways := save_giveaways writeOk gs1 st.savedGiveaways },
         JoinResult.joined)

/-- Outcome of `cancel_giveaway`. -/
inductive CancelResult where
  | notFound
  | alreadyEnded
  | cancelledOk
deriving DecidableEq, Repr

/-- `cancel_giveaway` (src/cogs/giveaway.py lines 594-635): unknown id
and already-ended checks; then the timer task is cancelled and its handle
deleted, the record marked ended, the collection saved, and the
cancellation (not a winner result) announced. -/
def cancel_giveaway (writeOk : Bool) (st : BotState) (gid : String) :
    BotState × CancelResult × List Effect :=
  match dictGet st.giveaways gid with
  | none => (st, CancelResult.notFound, [])
  | some g =>
      if g.ended then (st, CancelResult.alreadyEnded, [])
      else
        let g1 : Giveaway := { g with ended := true }
        let gs1 := dictSet st.giveaways gid g1
        ({ st with giveaways := gs1,
                   savedGiveaways := save_giveaways writeOk gs1 st.savedGiveaways,
                   activeTimers := dictErase st.activeTimers gid },
         CancelResult.cancelledOk, [Effect.cancelledAnnounced gid])

/-- Outcome of `set_exact_time`. -/
inductive RescheduleResult where
  | notFound
  | alreadyEnded
  | pastTimestamp
  | rescheduled
deriving DecidableEq, Repr

/-- `set_exact_time` (src/cogs/giveaway.py lines 644-723), after the
date/time text has parsed to the absolute timestamp `newTime`: unknown id
and already-ended checks leave the state untouched; a target not in the
future is rejected (`"Время окончания должно быть в будущем."`) with no
change; otherwise the existing timer task is cancelled and its handle
overwritten by a new one armed for `newTime - now`, the record's
`end_time` updated and the collection saved. -/
def set_exact_time (writeOk : Bool) (st : BotState) (gid : String)
    (newTime now : Int) : BotState × RescheduleResult :=
  match dictGet st.giveaways gid with
  | none => (st, RescheduleResult.notFound)
  | some g =>
      if g.ended then (st, RescheduleResult.alreadyEnded)
      else if newTime ≤ now then (st, RescheduleResult.pastTimestamp)
      else
        let g1 : Giveaway := { g with endTime := newTime }
        let gs1 := dictSet st.giveaways gid g1
        ({ st with giveaways := gs1,
                   savedGiveaways := save_giveaways writeOk gs1 st.savedGiveaways,
                   activeTimers := dictSet st.activeTimers gid (newTime - now) },
         RescheduleResult.rescheduled)

/-- Outcome of `attach_gif`. -/
inductive AttachResult where
  | giveawayNotFound
  | gifNotFound
  | alreadyEnded
  | attached
deriving DecidableEq, Repr

/-- `attach_gif` (src/cogs/giveaway.py lines 836-868): unknown giveaway,
unknown gif and already-ended checks leave the state untouched; otherwise
`celebration_gif` is set and the collection saved. -/
def attach_gif (writeOk : Bool) (st : BotState) (gid gifId : String) :
    BotState × AttachResult :=
  match dictGet st.giveaways gid with
  | none => (st, AttachResult.giveawayNotFound)
  | some g =>
      match dictGet st.gifs gifId with
      | none => (st, AttachResult.gifNotFound)
      | some _ =>
          if g.ended then (st, AttachResult.alreadyEnded)
          else
            let g1 : Giveaway := { g with celebrationGif := some gifId }
            let gs1 := dictSet st.giveaways gid g1
            ({ st with giveaways := gs1,
                       savedGiveaways := save_giveaways writeOk gs1 st.savedGiveaways },
             AttachResult.attached)

/-- Outcome of `assign_prizes`. -/
inductive AssignResult where
  | notFound
  | alreadyEnded
  | noneResolved
  | assigned
deriving DecidableEq, Repr

/-- `assign_prizes` (src/cogs/giveaway.py lines 876-912): unknown id and
already-ended checks; the spec string is parsed against the global
catalog; an empty resolved set is rejected; otherwise the resolved dict
becomes the giveaway's `assigned_prizes` and the collection is saved. -/
def assign_prizes (writeOk : Bool) (st : BotState) (gid spec : String) :
    BotState × AssignResult :=
  match dictGet st.giveaways gid with
  | none => (st, AssignResult.notFound)
  | some g =>
      if g.ended then (st, AssignResult.alreadyEnded)
      else
        let parsed := parse_prize_ids spec st.prizes
        if parsed.1.isEmpty then (st, AssignResult.noneResolved)
        else
          let g1 : Giveaway := { g with assignedPrizes := parsed.1 }
          let gs1 := dictSet st.giveaways gid g1
          ({ st with giveaways := gs1,
                     savedGiveaways := save_giveaways writeOk gs1 st.savedGiveaways },
           AssignResult.assigned)

/-- One startup decision of `reload_active_giveaways`. -/
inductive StartupAction where
  | armTimer (gid : String) (delta : Int)
  | resolveNow (gid : String)
deriving DecidableEq, Repr

/-- The giveaway id an action concerns. -/
def StartupAction.gid : StartupAction → String
  | StartupAction.armTimer g _ => g
  | StartupAction.resolveNow g => g

/-- `reload_active_giveaways` (src/cogs/giveaway.py lines 183-203): for
each stored giveaway, an ended one is skipped; one whose `end_time` is
still ahead of `now` gets a timer task for the remaining delta; any other
gets an immediate `end_giveaway` task. -/
def reload_active_giveaways (now : Int) (gs : List (String × Giveaway)) :
    List StartupAction :=
  gs.filterMap (fun p =>
    if p.2.ended then none
    else if now < p.2.endTime then some (StartupAction.armTimer p.1 (p.2.endTime - now))
    else some (StartupAction.resolveNow p.1))

/-- Number of winner-selection announcements in an effect trace. -/
def countWinner (l : List Effect) : Nat :=
  (l.filter fun e =>
    match e with
    | Effect.winnerAnnounced _ _ _ => true
    | _ => false).length

/-- The catalog hits of a numeric range, in ascending order. -/
def rangeHits (prizes : List (String × String)) (A B : Int) :
    List (String × String) :=
  (intRange A B).filterMap
    (fun i => (dictGet prizes (toString i)).map (fun v => (toString i, v)))

/-- The catalog misses of a numeric range, in ascending order. -/
def rangeMisses (prizes : List (String × String)) (A B : Int) : List String :=
  ((intRange A B).filter (fun i => (dictGet prizes (toString i)).isNone)).map
    toString

/-- The giveaway record used by the join witness. -/
def sampleJoinG : Giveaway :=
  { title := "t", description := "d", creatorId := "c", guildId := "gu",
    channelId := some "ch", messageId := some "m", endTime := 50,
    participants := ["u1"], ended := false, assignedPrizes := [],
    celebrationGif := none }

/-- The state used by the join witness. -/
def sampleJoinSt : BotState :=
  { giveaways := [("g1", sampleJoinG)], prizes := [], gifs := [],
    activeTimers := [("g1", 50)], savedGiveaways := [("g1", sampleJoinG)] }

/-- A compact giveaway-record builder for concrete witness states. -/
def mkGive (endTime : Int) (participants : List String) (ended : Bool)
    (assigned : List (String × String)) : Giveaway :=
  { title := "t", description := "d", creatorId := "c", guildId := "gu",
    channelId := some "ch", messageId := some "m", endTime := endTime,
    participants := participants, ended := ended,
    assignedPrizes := assigned, celebrationGif := none }

/-- The persisted collection used by the startup-recovery witness:
one ended giveaway, one still in the future, one already expired. -/
def sampleReloadGs : List (String × Giveaway) :=
  [("e1", mkGive 300 ["u1"] true []),
   ("f1", mkGive 150 [] false []),
   ("p1", mkGive 50 ["u2"] false [])]

/-- The state used by the reschedule witness: one ended and one live
giveaway. -/
def sampleRescheduleSt : BotState :=
  { giveaways := [("e1", mkGive 50 [] true []),
                  ("g1", mkGive 150 [] false [])],
    prizes := [], gifs := [], activeTimers := [("g1", 150)],
    savedGiveaways := [] }

/-- The giveaway used by the prize-precedence witness: two participants
and one assigned prize. -/
def samplePrizeG : Giveaway := mkGive 50 ["u1", "u2"] false [("5", "E")]

/-- The state used by the prize-precedence witness: a nonempty global
catalog that must be ignored. -/
def samplePrizeSt : BotState :=
  { giveaways := [("g1", samplePrizeG)], prizes := [("9", "Z")], gifs := [],
    activeTimers := [], savedGiveaways := [] }

/-- The live one-participant giveaway of the C1 counterexample. -/
def sampleResolveSt : BotState :=
  { giveaways := [("g1", mkGive 50 ["u1"] false [])], prizes := [],
    gifs := [], activeTimers := [], savedGiveaways := [] }

/-- The already-ended state of the C1 witness. -/
def sampleResolveEndedSt : BotState :=
  { giveaways := [("g1", mkGive 50 ["u1"] true [])], prizes := [],
    gifs := [], activeTimers := [], savedGiveaways := [] }

/-- The empty state used by the creation counterexample. -/
def emptyState : BotState :=
  { giveaways := [], prizes := [], gifs := [], activeTimers := [],
    savedGiveaways := [] }

/-- The live empty-participants state of the C3 counterexample. -/
def sampleSaveFailSt : BotState :=
  { giveaways := [("g1", mkGive 50 [] false [])], prizes := [], gifs := [],
    activeTimers := [("g1", 50)], savedGiveaways := [("g1", mkGive 50 []
      false [])] }

/-- A live giveaway with an armed timer whose channel lookup will fail,
for the C8 counterexample. -/
def sampleStaleSt : BotState :=
  { giveaways := [("g1", mkGive 50 ["u1"] false [])], prizes := [],
    gifs := [], activeTimers := [("g1", 60)], savedGiveaways := [] }

/-- The already-ended state of the C8 witness, with a stored gif. -/
def sampleTerminalSt : BotState :=
  { giveaways := [("g1", mkGive 50 ["u1"] true [("5", "E")])], prizes := [],
    gifs := [("gif1", "party")], activeTimers := [], savedGiveaways := [] }

lemma dictGet_dictSet_self {v : Type} (l : List (String × v)) (k : String)
    (x : v) : dictGet (dictSet l k x) k = some x := by
  induction l with
  | nil => simp [dictSet, dictGet]
  | cons p rest ih =>
      obtain ⟨k1, v1⟩ := p
      by_cases h : k1 = k
      · simp [dictSet, dictGet, h]
      · simp [dictSet, dictGet, h, ih]

lemma not_mem_keys_dictErase {v : Type} (l : List (String × v)) (k : String)
    (h : (dictKeys l).Nodup) : k ∉ dictKeys (dictErase l k) := by
  induction l with
  | nil => simp [dictErase, dictKeys]
  | cons p rest ih =>
      obtain ⟨k1, v1⟩ := p
      simp only [dictKeys, List.map_cons, List.nodup_cons] at h
      by_cases hk : k1 = k
      · subst hk
        simpa [dictErase, dictKeys] using h.1
      · intro hmem
        simp only [dictErase, if_neg hk, dictKeys, List.map_cons,
          List.mem_cons] at hmem
        rcases hmem with h1 | h2
        · exact hk h1.symm
        · exact ih h.2 h2

lemma classify_fold_split (prizes : List (String × String)) (l : List Int)
    (acc : List (String × String) × List String) :
    l.foldl (fun acc2 i => classifyId prizes acc2 (toString i)) acc
      = ((l.filterMap
            (fun i => (dictGet prizes (toString i)).map
              (fun v => (toString i, v)))).foldl
            (fun r p => dictSet r p.1 p.2) acc.1,
         acc.2 ++ (l.filter
            (fun i => (dictGet prizes (toString i)).isNone)).map toString) := by
  induction l generalizing acc with
  | nil => simp
  | cons i rest ih =>
      rcases h : dictGet prizes (toString i) with _ | v
      · simp only [List.foldl_cons, List.filterMap_cons, List.filter_cons, h,
          Option.map_none', Option.isNone_none, if_pos, List.map_cons]
        rw [ih]
        simp [classifyId, h, List.append_assoc]
      · simp only [List.foldl_cons, List.filterMap_cons, List.filter_cons, h,
          Option.map_some', Option.isNone_some, Bool.false_eq_true, if_neg,
          List.map_cons]
        rw [ih]
        simp [classifyId, h]

lemma intRange_nil (a b : Int) (h : b < a) : intRange a b = [] := by
  unfold intRange
  have h0 : (b + 1 - a).toNat = 0 := Int.toNat_of_nonpos (by omega)
  rw [h0]
  rfl

/-- C4: `parse_prize_ids` splits the spec on commas; a well-formed range
token `A-B` looks every integer of `[A,B]` up by its string form, hits
entering `resolved` and misses `unresolved` in ascending numeric order; a
malformed range (wrong piece count or a non-integer bound) is treated as
a bare id; every token's outcome is a classification, never an error; and
`parse_prize_ids("1,5-6", (1:A, 5:E))` gives resolved `(1:A, 5:E)` and
unresolved `["6"]`. -/
theorem parse_prize_ids_classification :
    (parse_prize_ids "1,5-6" [("1", "A"), ("5", "E")]
        = ([("1", "A"), ("5", "E")], ["6"]))
    ∧ (∀ prizes acc t a b A B,
        pyContains t '-' = true → pySplit '-' t = [a, b] →
        pyInt (pyStrip a) = some A → pyInt (pyStrip b) = some B →
        processToken prizes acc t
          = ((rangeHits prizes A B).foldl (fun r p => dictSet r p.1 p.2) acc.1,
             acc.2 ++ rangeMisses prizes A B))
    ∧ (∀ prizes acc t, pyContains t '-' = true →
        (pySplit '-' t).length ≠ 2 →
        processToken prizes acc t = classifyId prizes acc t)
    ∧ (∀ prizes acc t a b, pyContains t '-' = true → pySplit '-' t = [a, b] →
        pyInt (pyStrip a) = none ∨ pyInt (pyStrip b) = none →
        processToken prizes acc t = classifyId prizes acc t) := by
  refine ⟨by decide, ?_, ?_, ?_⟩
  · intro prizes acc t a b A B hc hs hA hB
    simp only [processToken, hc, if_true, hs, hA, hB]
    exact classify_fold_split prizes (intRange A B) acc
  · intro prizes acc t hc hlen
    simp only [processToken, hc, if_true]
    rcases hs : pySplit '-' t with _ | ⟨a, rest⟩
    · rfl
    · rcases rest with _ | ⟨b, rest2⟩
      · rfl
      · rcases rest2 with _ | ⟨c, rest3⟩
        · rw [hs] at hlen
          simp at hlen
        · rfl
  · intro prizes acc t a b hc hs hnone
    simp only [processToken, hc, if_true, hs]
    rcases hnone with h | h
    · rw [h]
    · rw [h]
      rcases pyInt (pyStrip a) with _ | A
      · rfl
      · rfl

/-- Witness for C4: the range part at the concrete token `1-3` against a
catalog holding only id `2`. -/
theorem parse_prize_ids_classification_witness :
    processToken [("2", "B")] ([], []) "1-3"
      = ((rangeHits [("2", "B")] 1 3).foldl (fun r p => dictSet r p.1 p.2) [],
         [] ++ rangeMisses [("2", "B")] 1 3) :=
  parse_prize_ids_classification.2.1 [("2", "B")] ([], []) "1-3" "1" "3" 1 3
    (by decide) (by decide) (by decide) (by decide)

/-- C10: a range token whose integer bounds are reversed (`A > B`)
expands to the empty range, so `parse_prize_ids` adds nothing to either
output for it — the token is silently dropped. -/
theorem reversed_range_silently_dropped :
    ∀ prizes acc t a b A B,
      pyContains t '-' = true → pySplit '-' t = [a, b] →
      pyInt (pyStrip a) = some A → pyInt (pyStrip b) = some B →
      B < A → processToken prizes acc t = acc := by
  intro prizes acc t a b A B hc hs hA hB hlt
  simp only [processToken, hc, if_true, hs, hA, hB]
  rw [intRange_nil A B hlt]
  rfl

/-- Witness for C10: the concrete reversed range token `5-3`. -/
theorem reversed_range_silently_dropped_witness :
    processToken [("2", "B"), ("4", "D")] ([("9", "I")], ["x"]) "5-3"
      = ([("9", "I")], ["x"]) :=
  reversed_range_silently_dropped [("2", "B"), ("4", "D")]
    ([("9", "I")], ["x"]) "5-3" "5" "3" 5 3
    (by decide) (by decide) (by decide) (by decide) (by decide)

lemma pyChoice_mem (l : List String) (k : Nat) (h : l ≠ []) :
    pyChoice l k ∈ l := by
  unfold pyChoice
  have hlen : 0 < l.length := List.length_pos.mpr h
  have hk : k % l.length < l.length := Nat.mod_lt _ hlen
  rw [List.getD_eq_getElem l "" hk]
  exact List.getElem_mem hk

lemma mem_of_contains_true {l : List String} {a : String}
    (h : l.contains a = true) : a ∈ l :=
  List.elem_iff.mp h

lemma not_mem_of_contains_false {l : List String} {a : String}
    (h : l.contains a = false) : a ∉ l := by
  intro hm
  have h2 : l.contains a = true := List.elem_iff.mpr hm
  exact absurd (h2.symm.trans h) (by simp)

lemma dictKey_inj {v : Type} {l : List (String × v)}
    (hnd : (dictKeys l).Nodup) {k : String} {a b : v}
    (ha : (k, a) ∈ l) (hb : (k, b) ∈ l) : a = b := by
  induction l with
  | nil => cases ha
  | cons p rest ih =>
      simp only [dictKeys, List.map_cons, List.nodup_cons] at hnd
      rcases List.mem_cons.mp ha with h1 | h1
      · rcases List.mem_cons.mp hb with h2 | h2
        · exact congrArg Prod.snd (h1.trans h2.symm)
        · exfalso
          apply hnd.1
          have hk : p.1 = k := by rw [← h1]
          rw [hk]
          exact List.mem_map_of_mem Prod.fst h2
      · rcases List.mem_cons.mp hb with h2 | h2
        · exfalso
          apply hnd.1
          have hk : p.1 = k := by rw [← h2]
          rw [hk]
          exact List.mem_map_of_mem Prod.fst h1
        · exact ih hnd.2 h1 h2

lemma mark_ended_eq (g : Giveaway) (h : g.ended = true) :
    ({ g with ended := true } : Giveaway) = g := by
  cases g
  simp_all

lemma selectPrize_mem_assigned (assigned c : List (String × String)) (k : Nat)
    (h : assigned ≠ []) : selectPrize assigned c k ∈ dictValues assigned := by
  have hb : assigned.isEmpty = false := List.isEmpty_eq_false.mpr h
  simp only [selectPrize, hb, if_true]
  apply pyChoice_mem
  simp [dictValues]
  exact h

lemma selectPrize_mem_global (c : List (String × String)) (k : Nat)
    (h : c ≠ []) : selectPrize [] c k ∈ dictValues c := by
  have hb : c.isEmpty = false := List.isEmpty_eq_false.mpr h
  simp only [selectPrize, List.isEmpty_nil, hb, if_true]
  apply pyChoice_mem
  simp [dictValues]
  exact h

lemma selectPrize_ignores_catalog (assigned c1 c2 : List (String × String))
    (k : Nat) (h : assigned ≠ []) :
    selectPrize assigned c1 k = selectPrize assigned c2 k := by
  have hb : assigned.isEmpty = false := List.isEmpty_eq_false.mpr h
  simp only [selectPrize, hb, if_true]

/-- C9: `add_participant` is idempotent — a join for a user already in
`participants` of a live giveaway leaves the state untouched and answers
"already joined"; a second call right after any first call never changes
the state again; and the no-duplicate invariant on `participants` is
preserved by every call. -/
theorem add_participant_idempotent :
    (∀ writeOk st gid uid g,
        dictGet st.giveaways gid = some g → g.ended = false →
        uid ∈ g.participants →
        add_participant writeOk st gid uid = (st, JoinResult.alreadyJoined))
    ∧ (∀ w1 w2 st gid uid,
        (add_participant w2 (add_participant w1 st gid uid).1 gid uid).1
          = (add_participant w1 st gid uid).1)
    ∧ (∀ writeOk st gid uid g g1,
        dictGet st.giveaways gid = some g → g.participants.Nodup →
        dictGet (add_participant writeOk st gid uid).1.giveaways gid = some g1 →
        g1.participants.Nodup) := by
  refine ⟨?_, ?_, ?_⟩
  · intro writeOk st gid uid g hget he hm
    simp [add_participant, hget, he, hm]
  · intro w1 w2 st gid uid
    rcases hget : dictGet st.giveaways gid with _ | g
    · simp [add_participant, hget]
    · cases he : g.ended
      · cases hc : g.participants.contains uid
        · have hm : uid ∉ g.participants := not_mem_of_contains_false hc
          simp [add_participant, hget, he, hm, dictGet_dictSet_self]
        · have hm : uid ∈ g.participants := mem_of_contains_true hc
          simp [add_participant, hget, he, hm]
      · simp [add_participant, hget, he]
  · intro writeOk st gid uid g g1 hget hnd hget1
    cases he : g.ended
    · cases hc : g.participants.contains uid
      · have hm : uid ∉ g.participants := not_mem_of_contains_false hc
        have hcall : dictGet (add_participant writeOk st gid uid).1.giveaways
            gid = some { g with participants := g.participants ++ [uid] } := by
          simp [add_participant, hget, he, hm, dictGet_dictSet_self]
        rw [hcall] at hget1
        obtain rfl :
            ({ g with participants := g.participants ++ [uid] } : Giveaway)
              = g1 := Option.some.inj hget1
        simp [List.nodup_append, hnd, hm]
      · have hm : uid ∈ g.participants := mem_of_contains_true hc
        have hcall : (add_participant writeOk st gid uid).1 = st := by
          simp [add_participant, hget, he, hm]
        rw [hcall, hget] at hget1
        obtain rfl : g = g1 := Option.some.inj hget1
        exact hnd
    · have hcall : (add_participant writeOk st gid uid).1 = st := by
        simp [add_participant, hget, he]
      rw [hcall, hget] at hget1
      obtain rfl : g = g1 := Option.some.inj hget1
      exact hnd

/-- Witness for C9: a second join by `u1` on a live giveaway already
holding `u1` answers already-joined and changes nothing. -/
theorem add_participant_idempotent_witness :
    add_participant true sampleJoinSt "g1" "u1"
      = (sampleJoinSt, JoinResult.alreadyJoined) :=
  add_participant_idempotent.1 true sampleJoinSt "g1" "u1" sampleJoinG
    (by decide) (by decide) (by decide)

/-- C5: startup recovery — every persisted giveaway with `ended=false`
and `endTime` still in the future gets a timer armed for exactly
`endTime - now`; every one with `ended=false` and `endTime` already
passed is resolved immediately with no external trigger; an ended one
yields no startup action at all. -/
theorem reload_active_giveaways_spec :
    ∀ now gs gid g, (gid, g) ∈ gs →
      ((g.ended = false → now < g.endTime →
          StartupAction.armTimer gid (g.endTime - now)
            ∈ reload_active_giveaways now gs)
       ∧ (g.ended = false → g.endTime < now →
          StartupAction.resolveNow gid ∈ reload_active_giveaways now gs)
       ∧ (g.ended = true → (dictKeys gs).Nodup →
          ∀ a ∈ reload_active_giveaways now gs, StartupAction.gid a ≠ gid)) := by
  intro now gs gid g hmem
  refine ⟨?_, ?_, ?_⟩
  · intro hE hlt
    refine List.mem_filterMap.mpr ⟨(gid, g), hmem, ?_⟩
    simp [hE, hlt]
  · intro hE hlt
    refine List.mem_filterMap.mpr ⟨(gid, g), hmem, ?_⟩
    have hnl : ¬ now < g.endTime := by omega
    simp [hE, hnl]
  · intro hE hnd a hma heq
    obtain ⟨p, hp, hfp⟩ := List.mem_filterMap.mp hma
    cases hpe : p.2.ended
    · have hp2 : (p.1, p.2) ∈ gs := by simpa using hp
      by_cases hlt : now < p.2.endTime
      · simp only [hpe, Bool.false_eq_true, if_false, hlt, if_true] at hfp
        obtain rfl := Option.some.inj hfp
        simp only [StartupAction.gid] at heq
        rw [heq] at hp2
        have hgg : g = p.2 := dictKey_inj hnd hmem hp2
        rw [← hgg] at hpe
        rw [hE] at hpe
        cases hpe
      · simp only [hpe, Bool.false_eq_true, if_false, hlt, if_false] at hfp
        obtain rfl := Option.some.inj hfp
        simp only [StartupAction.gid] at heq
        rw [heq] at hp2
        have hgg : g = p.2 := dictKey_inj hnd hmem hp2
        rw [← hgg] at hpe
        rw [hE] at hpe
        cases hpe
    · simp [hpe] at hfp

/-- Witness for C5 at `now = 100`: the future giveaway gets a timer for
the 50 remaining seconds, the expired one an immediate resolution, and
the ended one no action. -/
theorem reload_active_giveaways_spec_witness :
    (StartupAction.armTimer "f1" 50 ∈ reload_active_giveaways 100 sampleReloadGs)
    ∧ (StartupAction.resolveNow "p1" ∈ reload_active_giveaways 100 sampleReloadGs)
    ∧ (∀ a ∈ reload_active_giveaways 100 sampleReloadGs,
        StartupAction.gid a ≠ "e1") :=
  ⟨by
    have h := (reload_active_giveaways_spec 100 sampleReloadGs "f1"
      (mkGive 150 [] false []) (by decide)).1 (by decide) (by decide)
    simpa using h,
   by
    have h := (reload_active_giveaways_spec 100 sampleReloadGs "p1"
      (mkGive 50 ["u2"] false []) (by decide)).2.1 (by decide) (by decide)
    simpa using h,
   by
    have h := (reload_active_giveaways_spec 100 sampleReloadGs "e1"
      (mkGive 300 ["u1"] true []) (by decide)).2.2 (by decide) (by decide)
    exact h⟩

/-- C7: `set_exact_time` on an already-ended giveaway always fails with
the already-ended response and changes nothing (in particular `endTime`
is unchanged); a live giveaway with a target time not in the future fails
with the past-timestamp response and changes nothing; otherwise the end
time is updated, persisted when the write succeeds, and a timer is armed
for exactly `newTime - now`. -/
theorem set_exact_time_spec :
    ∀ writeOk st gid g newTime now,
      dictGet st.giveaways gid = some g →
      ((g.ended = true →
          set_exact_time writeOk st gid newTime now
            = (st, RescheduleResult.alreadyEnded))
       ∧ (g.ended = false → newTime ≤ now →
          set_exact_time writeOk st gid newTime now
            = (st, RescheduleResult.pastTimestamp))
       ∧ (g.ended = false → now < newTime →
          (set_exact_time writeOk st gid newTime now).2
              = RescheduleResult.rescheduled
            ∧ dictGet (set_exact_time writeOk st gid newTime now).1.giveaways
                gid = some { g with endTime := newTime }
            ∧ dictGet (set_exact_time writeOk st gid newTime
                now).1.activeTimers gid = some (newTime - now)
            ∧ (writeOk = true →
                (set_exact_time writeOk st gid newTime now).1.savedGiveaways
                  = (set_exact_time writeOk st gid newTime
                      now).1.giveaways))) := by
  intro writeOk st gid g newTime now hget
  refine ⟨?_, ?_, ?_⟩
  · intro hE
    simp [set_exact_time, hget, hE]
  · intro hE hle
    simp [set_exact_time, hget, hE, hle]
  · intro hE hlt
    have hnle : ¬ newTime ≤ now := by omega
    refine ⟨?_, ?_, ?_, ?_⟩
    · simp [set_exact_time, hget, hE, hnle]
    · simp [set_exact_time, hget, hE, hnle, dictGet_dictSet_self]
    · simp [set_exact_time, hget, hE, hnle, dictGet_dictSet_self]
    · intro hw
      simp [set_exact_time, hget, hE, hnle, save_giveaways, hw]

/-- Witness for C7: rescheduling the ended giveaway `e1` fails and
changes nothing; rescheduling live `g1` to 300 at `now = 100` succeeds
and arms a 200-second timer. -/
theorem set_exact_time_spec_witness :
    (set_exact_time true sampleRescheduleSt "e1" 300 100
        = (sampleRescheduleSt, RescheduleResult.alreadyEnded))
    ∧ (set_exact_time true sampleRescheduleSt "g1" 300 100).2
        = RescheduleResult.rescheduled
    ∧ dictGet (set_exact_time true sampleRescheduleSt "g1" 300
        100).1.activeTimers "g1" = some 200 :=
  ⟨(set_exact_time_spec true sampleRescheduleSt "e1" (mkGive 50 [] true [])
      300 100 (by decide)).1 (by decide),
   ((set_exact_time_spec true sampleRescheduleSt "g1" (mkGive 150 [] false [])
      300 100 (by decide)).2.2 (by decide) (by decide)).1,
   ((set_exact_time_spec true sampleRescheduleSt "g1" (mkGive 150 [] false [])
      300 100 (by decide)).2.2 (by decide) (by decide)).2.2.1⟩

/-- C6: on the resolution of a giveaway with participants, the announced
prize comes from `assignedPrizes.values()` whenever `assignedPrizes` is
nonempty — and is then independent of the global catalog entirely; with
no assigned prizes it comes from the nonempty global catalog; with both
empty it is the fixed placeholder `"Mystery Prize"`. -/
theorem prize_precedence :
    ∀ env kW kP st gid g ch m,
      dictGet st.giveaways gid = some g →
      g.channelId = some ch → g.messageId = some m →
      env.channelOk = true → g.participants ≠ [] →
      ∃ w p, (end_giveaway env kW kP st gid).2
          = [Effect.winnerAnnounced gid w p]
        ∧ (g.assignedPrizes ≠ [] → p ∈ dictValues g.assignedPrizes)
        ∧ (g.assignedPrizes ≠ [] →
            ∀ c2, selectPrize g.assignedPrizes c2 kP = p)
        ∧ (g.assignedPrizes = [] → st.prizes ≠ [] → p ∈ dictValues st.prizes)
        ∧ (g.assignedPrizes = [] → st.prizes = [] → p = "Mystery Prize") := by
  intro env kW kP st gid g ch m hget hch hm hco hne
  refine ⟨pyChoice g.participants kW,
    selectPrize g.assignedPrizes st.prizes kP, ?_, ?_, ?_, ?_, ?_⟩
  · have hie : g.participants.isEmpty = false := List.isEmpty_eq_false.mpr hne
    simp [end_giveaway, hget, hch, hm, hco, hie]
  · intro ha
    exact selectPrize_mem_assigned g.assignedPrizes st.prizes kP ha
  · intro ha c2
    exact selectPrize_ignores_catalog g.assignedPrizes c2 st.prizes kP ha
  · intro ha hp
    rw [ha]
    exact selectPrize_mem_global st.prizes kP hp
  · intro ha hp
    rw [ha, hp]
    rfl

/-- Witness for C6 at a giveaway holding assigned prize `5:E` while the
global catalog holds `9:Z`. -/
theorem prize_precedence_witness :
    ∃ w p, (end_giveaway ⟨true, true⟩ 0 1 samplePrizeSt "g1").2
        = [Effect.winnerAnnounced "g1" w p]
      ∧ (samplePrizeG.assignedPrizes ≠ [] →
          p ∈ dictValues samplePrizeG.assignedPrizes)
      ∧ (samplePrizeG.assignedPrizes ≠ [] →
          ∀ c2, selectPrize samplePrizeG.assignedPrizes c2 1 = p)
      ∧ (samplePrizeG.assignedPrizes = [] → samplePrizeSt.prizes ≠ [] →
          p ∈ dictValues samplePrizeSt.prizes)
      ∧ (samplePrizeG.assignedPrizes = [] → samplePrizeSt.prizes = [] →
          p = "Mystery Prize") :=
  prize_precedence ⟨true, true⟩ 0 1 samplePrizeSt "g1" samplePrizeG "ch" "m"
    (by decide) (by decide) (by decide) (by decide) (by decide)

/-- C1 is false as stated: `end_giveaway` never checks the `ended` flag,
so a second call on the same giveaway — whose record by then carries
`ended = true` — runs winner selection again instead of being a no-op:
each of the two calls announces one winner, two side effects in total. -/
theorem end_giveaway_not_idempotent_counterexample :
    countWinner (end_giveaway ⟨true, true⟩ 0 0 sampleResolveSt "g1").2 = 1
    ∧ (dictGet (end_giveaway ⟨true, true⟩ 0 0 sampleResolveSt
        "g1").1.giveaways "g1").map Giveaway.ended = some true
    ∧ countWinner (end_giveaway ⟨true, true⟩ 0 0
        (end_giveaway ⟨true, true⟩ 0 0 sampleResolveSt "g1").1 "g1").2 = 1 := by
  decide

/-- C1 amended: `end_giveaway` carries no already-ended guard — invoked
on a giveaway whose `ended` flag is already true (announcement path
available), it selects and announces a winner again, so a repeated call
yields a second winner-selection side effect; only the `ended` flag
itself is idempotent, staying true. -/
theorem end_giveaway_reselects_when_ended :
    ∀ env kW kP st gid g ch m,
      dictGet st.giveaways gid = some g → g.ended = true →
      g.channelId = some ch → g.messageId = some m →
      env.channelOk = true → g.participants ≠ [] →
      ∃ w p, (end_giveaway env kW kP st gid).2
          = [Effect.winnerAnnounced gid w p]
        ∧ (dictGet (end_giveaway env kW kP st gid).1.giveaways gid).map
            Giveaway.ended = some true := by
  intro env kW kP st gid g ch m hget hE hch hm hco hne
  have hie : g.participants.isEmpty = false := List.isEmpty_eq_false.mpr hne
  refine ⟨pyChoice g.participants kW,
    selectPrize g.assignedPrizes st.prizes kP, ?_, ?_⟩
  · simp [end_giveaway, hget, hch, hm, hco, hie]
  · simp [end_giveaway, hget, hch, hm, hco, hie, dictGet_dictSet_self]

/-- Witness for amended C1: resolving the already-ended `g1` announces a
winner once more. -/
theorem end_giveaway_reselects_when_ended_witness :
    ∃ w p, (end_giveaway ⟨true, true⟩ 0 0 sampleResolveEndedSt "g1").2
        = [Effect.winnerAnnounced "g1" w p]
      ∧ (dictGet (end_giveaway ⟨true, true⟩ 0 0 sampleResolveEndedSt
          "g1").1.giveaways "g1").map Giveaway.ended = some true :=
  end_giveaway_reselects_when_ended ⟨true, true⟩ 0 0 sampleResolveEndedSt
    "g1" (mkGive 50 ["u1"] true []) "ch" "m" (by decide) (by decide)
    (by decide) (by decide) (by decide) (by decide)

/-- C2 is false as stated: `create_giveaway` performs no duration
validation — for the zero-duration request it still creates the record,
persists it, and arms a (zero-length) timer instead of failing. -/
theorem create_giveaway_no_validation_counterexample :
    (create_giveaway true emptyState "g1" "t" "d" "c" "gu" "ch" "m"
        0 0 1000).2 ≤ 0
    ∧ dictGet (create_giveaway true emptyState "g1" "t" "d" "c" "gu" "ch" "m"
        0 0 1000).1.giveaways "g1" ≠ none
    ∧ dictGet (create_giveaway true emptyState "g1" "t" "d" "c" "gu" "ch" "m"
        0 0 1000).1.savedGiveaways "g1" ≠ none
    ∧ dictGet (create_giveaway true emptyState "g1" "t" "d" "c" "gu" "ch" "m"
        0 0 1000).1.activeTimers "g1" = some 0 := by
  decide

/-- C2 amended: `create_giveaway` never rejects a duration — for every
requested duration, non-positive ones included, it creates the record
with `endTime = now + duration`, `ended = false` and no participants,
persists it, arms a timer for the duration, and reports that duration. -/
theorem create_giveaway_always_creates :
    ∀ st gid title description creatorId guildId channelId messageId
      hours minutes now,
      dictGet (create_giveaway true st gid title description creatorId
          guildId channelId messageId hours minutes now).1.giveaways gid
        = some { title := title, description := description,
                 creatorId := creatorId, guildId := guildId,
                 channelId := some channelId, messageId := some messageId,
                 endTime := now + (hours * 3600 + minutes * 60),
                 participants := [], ended := false, assignedPrizes := [],
                 celebrationGif := none }
      ∧ dictGet (create_giveaway true st gid title description creatorId
          guildId channelId messageId hours minutes now).1.activeTimers gid
          = some (hours * 3600 + minutes * 60)
      ∧ (create_giveaway true st gid title description creatorId guildId
          channelId messageId hours minutes now).1.savedGiveaways
          = (create_giveaway true st gid title description creatorId guildId
              channelId messageId hours minutes now).1.giveaways
      ∧ (create_giveaway true st gid title description creatorId guildId
          channelId messageId hours minutes now).2
          = hours * 3600 + minutes * 60 := by
  intro st gid title description creatorId guildId channelId messageId
    hours minutes now
  refine ⟨?_, ?_, ?_, ?_⟩ <;>
    simp [create_giveaway, dictGet_dictSet_self, save_giveaways]

/-- C3 is false as stated: with the backing write failing, a join is
still acknowledged as success while the persisted snapshot keeps the old
participant list — the operation proceeds as if persisted. -/
theorem save_failure_acknowledged_counterexample :
    (add_participant false sampleSaveFailSt "g1" "u9").2 = JoinResult.joined
    ∧ (add_participant false sampleSaveFailSt "g1" "u9").1.savedGiveaways
        = sampleSaveFailSt.savedGiveaways
    ∧ (dictGet (add_participant false sampleSaveFailSt "g1"
        "u9").1.giveaways "g1").map Giveaway.participants = some ["u9"]
    ∧ (dictGet (add_participant false sampleSaveFailSt "g1"
        "u9").1.savedGiveaways "g1").map Giveaway.participants = some [] := by
  decide

/-- C3 amended: every save failure is swallowed inside the store — a
join still acknowledges success, creation still installs its record and
timer, and resolution still runs, each leaving the persisted snapshot
exactly as it was before the operation. -/
theorem save_failure_swallowed :
    (∀ st gid uid g, dictGet st.giveaways gid = some g → g.ended = false →
        g.participants.contains uid = false →
        (add_participant false st gid uid).2 = JoinResult.joined
        ∧ (add_participant false st gid uid).1.savedGiveaways
            = st.savedGiveaways)
    ∧ (∀ st gid title description creatorId guildId channelId messageId
        hours minutes now,
        (create_giveaway false st gid title description creatorId guildId
            channelId messageId hours minutes now).1.savedGiveaways
          = st.savedGiveaways)
    ∧ (∀ kW kP st gid, ∀ channelOk : Bool,
        (end_giveaway ⟨channelOk, false⟩ kW kP st gid).1.savedGiveaways
          = st.savedGiveaways) := by
  refine ⟨?_, ?_, ?_⟩
  · intro st gid uid g hget hE hc
    have hm : uid ∉ g.participants := not_mem_of_contains_false hc
    refine ⟨?_, ?_⟩ <;> simp [add_participant, hget, hE, hm, save_giveaways]
  · intro st gid title description creatorId guildId channelId messageId
      hours minutes now
    simp [create_giveaway, save_giveaways]
  · intro kW kP st gid channelOk
    rcases hget : dictGet st.giveaways gid with _ | g
    · simp [end_giveaway, hget]
    · rcases hch : g.channelId with _ | ch <;>
        rcases hmsg : g.messageId with _ | m <;>
          cases channelOk <;>
            simp [end_giveaway, hget, hch, hmsg, save_giveaways]

/-- Witness for amended C3: the concrete failed-save join from the empty
participant list. -/
theorem save_failure_swallowed_witness :
    (add_participant false sampleSaveFailSt "g1" "u9").2 = JoinResult.joined
    ∧ (add_participant false sampleSaveFailSt "g1" "u9").1.savedGiveaways
        = sampleSaveFailSt.savedGiveaways :=
  save_failure_swallowed.1 sampleSaveFailSt "g1" "u9" (mkGive 50 [] false [])
    (by decide) (by decide) (by decide)

/-- C8 is false as stated: when `end_giveaway` aborts after the failed
channel lookup, the run has already set and persisted `ended = true` but
returns before the clean-up step, so the timer handle for the id is still
in the active-timer table after the ending operation completes. -/
theorem stale_timer_after_resolution_counterexample :
    (dictGet (end_giveaway ⟨false, true⟩ 0 0 sampleStaleSt "g1").1.giveaways
        "g1").map Giveaway.ended = some true
    ∧ dictGet (end_giveaway ⟨false, true⟩ 0 0 sampleStaleSt
        "g1").1.activeTimers "g1" = some 60 := by
  decide

/-- C8 amended: once `ended = true`, every mutating operation (join, gif
attach, reschedule, prize assignment, cancel) refuses and leaves the
state untouched, and a repeated resolution leaves the stored record
unchanged field for field; the timer handle is gone after a cancellation
and after a resolution whose announcement path completes (channel and
message ids present, channel found) — only a resolution that aborts
early can leave a stale handle behind. -/
theorem terminal_state_invariant :
    (∀ writeOk st gid uid g, dictGet st.giveaways gid = some g →
        g.ended = true →
        add_participant writeOk st gid uid = (st, JoinResult.alreadyEnded))
    ∧ (∀ writeOk st gid gifId g, dictGet st.giveaways gid = some g →
        g.ended = true → (attach_gif writeOk st gid gifId).1 = st)
    ∧ (∀ writeOk st gid newTime now g, dictGet st.giveaways gid = some g →
        g.ended = true →
        set_exact_time writeOk st gid newTime now
          = (st, RescheduleResult.alreadyEnded))
    ∧ (∀ writeOk st gid spec g, dictGet st.giveaways gid = some g →
        g.ended = true →
        assign_prizes writeOk st gid spec = (st, AssignResult.alreadyEnded))
    ∧ (∀ writeOk st gid g, dictGet st.giveaways gid = some g →
        g.ended = true →
        cancel_giveaway writeOk st gid = (st, CancelResult.alreadyEnded, []))
    ∧ (∀ env kW kP st gid g, dictGet st.giveaways gid = some g →
        g.ended = true →
        dictGet (end_giveaway env kW kP st gid).1.giveaways gid = some g)
    ∧ (∀ writeOk st gid g, dictGet st.giveaways gid = some g →
        g.ended = false → (dictKeys st.activeTimers).Nodup →
        gid ∉ dictKeys (cancel_giveaway writeOk st gid).1.activeTimers)
    ∧ (∀ env kW kP st gid g ch m, dictGet st.giveaways gid = some g →
        g.channelId = some ch → g.messageId = some m →
        env.channelOk = true → (dictKeys st.activeTimers).Nodup →
        gid ∉ dictKeys (end_giveaway env kW kP st gid).1.activeTimers) := by
  refine ⟨?_, ?_, ?_, ?_, ?_, ?_, ?_, ?_⟩
  · intro writeOk st gid uid g hget hE
    simp [add_participant, hget, hE]
  · intro writeOk st gid gifId g hget hE
    rcases hg : dictGet st.gifs gifId with _ | name <;>
      simp [attach_gif, hget, hg, hE]
  · intro writeOk st gid newTime now g hget hE
    simp [set_exact_time, hget, hE]
  · intro writeOk st gid spec g hget hE
    simp [assign_prizes, hget, hE]
  · intro writeOk st gid g hget hE
    simp [cancel_giveaway, hget, hE]
  · intro env kW kP st gid g hget hE
    have hg1 : ({ g with ended := true } : Giveaway) = g := mark_ended_eq g hE
    rcases hch : g.channelId with _ | ch <;>
      rcases hmsg : g.messageId with _ | m <;>
        cases hco : env.channelOk
    all_goals
      rw [hch, hmsg] at hg1
      simp [end_giveaway, hget, hch, hmsg, hco, hg1, dictGet_dictSet_self]
  · intro writeOk st gid g hget hE hnd
    have h := not_mem_keys_dictErase st.activeTimers gid hnd
    simpa [cancel_giveaway, hget, hE] using h
  · intro env kW kP st gid g ch m hget hch hmsg hco hnd
    have h := not_mem_keys_dictErase st.activeTimers gid hnd
    simpa [end_giveaway, hget, hch, hmsg, hco] using h

/-- Witness for amended C8: the ended `g1` rejects a join and a gif
attach unchanged, and live `g1` of the stale-timer state loses its timer
handle on cancellation and on a completed resolution. -/
theorem terminal_state_invariant_witness :
    (add_participant true sampleTerminalSt "g1" "u2"
        = (sampleTerminalSt, JoinResult.alreadyEnded))
    ∧ (attach_gif true sampleTerminalSt "g1" "gif1").1 = sampleTerminalSt
    ∧ "g1" ∉ dictKeys (cancel_giveaway true sampleStaleSt "g1").1.activeTimers
    ∧ "g1" ∉ dictKeys (end_giveaway ⟨true, true⟩ 0 0 sampleStaleSt
        "g1").1.activeTimers :=
  ⟨terminal_state_invariant.1 true sampleTerminalSt "g1" "u2"
      (mkGive 50 ["u1"] true [("5", "E")]) (by decide) (by decide),
   terminal_state_invariant.2.1 true sampleTerminalSt "g1" "gif1"
      (mkGive 50 ["u1"] true [("5", "E")]) (by decide) (by decide),
   terminal_state_invariant.2.2.2.2.2.2.1 true sampleStaleSt "g1"
      (mkGive 50 ["u1"] false []) (by decide) (by decide) (by decide),
   terminal_state_invariant.2.2.2.2.2.2.2 ⟨true, true⟩ 0 0 sampleStaleSt
      "g1" (mkGive 50 ["u1"] false []) "ch" "m" (by decide) (by decide)
      (by decide) (by decide) (by decide)⟩

end MysteryBox
